import Mathlib

/-!
Shallow embedding of `src/server/index.js` (AI-english-educator server).

The server keeps a per-connection chat session map and handles four socket
events: `getUserData`, `startConversation`, `sendMessage`, `disconnect`.
External effects (the Supabase profile store and the Gemini provider) are
modelled as explicit parameters: a fetch result is an `Option`, a store
write outcome is a `Bool`, a provider reply is an `Except`, and a streamed
reply is the list of chunks actually delivered plus a flag saying whether
the stream ran to completion.  Emitted socket events are collected in the
result values.
-/

namespace AIEnglish

/-- A row of the `profiles` table, as used by `getUserData`
(`select('*')`): JS `null` dates are `Option.none`. -/
structure Profile where
  streak : Nat
  last_login_date : Option String
  last_conversation_date : Option String
  daily_conversations : Nat
  is_premium : Bool
deriving DecidableEq, Repr

/-- The partial-update object built by `getUserData` (`const updates = {}`);
a `some` field is a field present in the object. -/
structure Updates where
  streak : Option Nat
  last_login_date : Option String
  daily_conversations : Option Nat
  last_conversation_date : Option String
deriving DecidableEq, Repr

/-- The empty `updates` object. -/
def Updates.empty : Updates := ⟨none, none, none, none⟩

/-- index.js lines 63-86: the streak branch, the last-login-day branch and
the daily-conversation reset, mutating `updates` and `needsUpdate` in
order.  Returns the final `updates` object and the `needsUpdate` flag. -/
def computeUpdates (user : Profile) (today yesterday : String) : Updates × Bool :=
  let step1 : Updates × Bool :=
    if user.last_login_date = some yesterday then
      ({ Updates.empty with streak := some (user.streak + 1) }, true)
    else if user.last_login_date ≠ some today then
      ({ Updates.empty with streak := some 1 }, true)
    else (Updates.empty, false)
  let step2 : Updates × Bool :=
    if user.last_login_date ≠ some today then
      ({ step1.1 with last_login_date := some today }, true)
    else step1
  let step3 : Updates × Bool :=
    if user.last_conversation_date ≠ some today then
      ({ step2.1 with daily_conversations := some 0,
                      last_conversation_date := some today }, true)
    else step2
  step3

/-- Semantics of the store's `update(updates)` call: fields present in the
update object overwrite the row, absent fields are kept. -/
def applyUpdates (user : Profile) (u : Updates) : Profile :=
  { streak := u.streak.getD user.streak
    last_login_date :=
      match u.last_login_date with
      | some d => some d
      | none => user.last_login_date
    daily_conversations := u.daily_conversations.getD user.daily_conversations
    last_conversation_date :=
      match u.last_conversation_date with
      | some d => some d
      | none => user.last_conversation_date
    is_premium := user.is_premium }

/-- Events the `getUserData` handler can emit. -/
inductive GUEvent where
  | userDataError (msg : String)
  | userData (p : Profile)
deriving DecidableEq, Repr

/-- Outcome of one `getUserData` handling: the partial update sent to the
store, if any write was attempted, and the single event emitted. -/
structure GetUserResult where
  write : Option Updates
  event : GUEvent
deriving DecidableEq, Repr

/-- index.js lines 38-109: the `getUserData` handler.  `fetch` is the
profile-store read result (`none` = error or no row), `updateOk` says
whether the store write succeeds. -/
def getUserData (userId : Option String) (fetch : Option Profile)
    (updateOk : Bool) (today yesterday : String) : GetUserResult :=
  match userId with
  | none => ⟨none, .userDataError "Missing userId"⟩
  | some _ =>
    match fetch with
    | none => ⟨none, .userDataError "Could not find user profile."⟩
    | some user =>
      let cu := computeUpdates user today yesterday
      if cu.2 then
        if updateOk then ⟨some cu.1, .userData (applyUpdates user cu.1)⟩
        else ⟨some cu.1, .userData user⟩
      else ⟨none, .userData user⟩

/-- The profile of the emitted `userData` event, when one was emitted. -/
def eventProfile (r : GetUserResult) : Option Profile :=
  match r.event with
  | .userData p => some p
  | .userDataError _ => none

/-- The two columns `startConversation` and `sendMessage` select
(`select('daily_conversations, is_premium')`). -/
structure QuotaRow where
  daily_conversations : Nat
  is_premium : Bool
deriving DecidableEq, Repr

/-- Projection of a stored profile to the selected columns. -/
def rowOf (p : Profile) : QuotaRow := ⟨p.daily_conversations, p.is_premium⟩

/-- index.js line 129: the quota guard of `startConversation`; `false`
means the handler emits `limitReached` and returns. -/
def checkQuota (row : QuotaRow) : Bool :=
  if 3 ≤ row.daily_conversations ∧ row.is_premium = false then false else true

/-- A `chatSessions` map entry: `{ chat, userMessageCount, userId }`, with
the opaque provider handle elided. -/
structure Session where
  userMessageCount : Nat
  userId : String
deriving DecidableEq, Repr

/-- Events the `startConversation` handler can emit. -/
inductive StartEvent where
  | error (msg : String)
  | limitReached
  | aiMessage (text : String)
deriving DecidableEq, Repr

/-- Outcome of one `startConversation` handling: the session stored in
`chatSessions` for this connection (if `set` ran) and the event emitted. -/
structure StartResult where
  sessionSet : Option Session
  event : StartEvent
deriving DecidableEq, Repr

/-- index.js lines 112-170: the `startConversation` handler.  `fetch` is
the quota-row read (`none` = error or no row); `provider` is the outcome
of `chat.sendMessage("START_CONVERSATION")`.  Note the source stores the
new session (line 162) before awaiting the provider (line 164), so a
provider failure still leaves the new session in the map. -/
def startConversation (userId : Option String) (fetch : Option QuotaRow)
    (provider : Except Unit String) : StartResult :=
  match userId with
  | none => ⟨none, .error "Missing userId."⟩
  | some uid =>
    match fetch with
    | none => ⟨none, .error "User not found."⟩
    | some user =>
      if checkQuota user = false then ⟨none, .limitReached⟩
      else
        match provider with
        | .ok reply => ⟨some ⟨0, uid⟩, .aiMessage reply⟩
        | .error _ => ⟨some ⟨0, uid⟩, .error "Failed to start conversation."⟩

/-- Events the `sendMessage` handler can emit. -/
inductive MsgEvent where
  | error (msg : String)
  | conversationCompleted (daily_conversations : Nat)
  | aiMessageChunk (text : String)
  | aiMessageEnd
deriving DecidableEq, Repr

/-- The external inputs of one `sendMessage` handling: the completion-time
profile re-fetch, today's date, the chunks the provider stream delivered,
and whether the stream ran to completion (`false` = the stream call or the
iteration threw after `chunks`). -/
structure SendInput where
  fetch : Option QuotaRow
  today : String
  chunks : List String
  streamOk : Bool
deriving DecidableEq, Repr

/-- Outcome of one `sendMessage` handling: the session now in the map for
this connection, the `{daily_conversations, last_conversation_date}` row
update attempted (if any), and the events emitted in order. -/
structure SendResult where
  session : Option Session
  write : Option (Nat × String)
  events : List MsgEvent
deriving DecidableEq, Repr

/-- index.js lines 184-204: the `if (userMessageCount === 5)` block.
Returns the attempted store write and the events it emits.  The re-fetch
failing (`none`) or a premium row skips the block silently. -/
def completionStep (count : Nat) (fetch : Option QuotaRow) (today : String) :
    Option (Nat × String) × List MsgEvent :=
  if count = 5 then
    match fetch with
    | some user =>
      if user.is_premium = false then
        (some (user.daily_conversations + 1, today),
         [MsgEvent.conversationCompleted (user.daily_conversations + 1)])
      else (none, [])
    | none => (none, [])
  else (none, [])

/-- index.js lines 206-215: the streaming loop.  Each delivered chunk is
forwarded in order as `aiMessageChunk`; completion emits `aiMessageEnd`,
a mid-stream failure emits the catch block's error and no end signal. -/
def relay (chunks : List String) (streamOk : Bool) : List MsgEvent :=
  chunks.map MsgEvent.aiMessageChunk ++
    (if streamOk then [MsgEvent.aiMessageEnd]
     else [MsgEvent.error "Failed to get AI response."])

/-- index.js lines 173-216: the `sendMessage` handler.  `session` is the
`chatSessions` entry for this connection.  The count is incremented first,
then the completion block runs, then the reply is streamed. -/
def sendMessage (session : Option Session) (inp : SendInput) : SendResult :=
  match session with
  | none => ⟨none, none, [.error "Chat session not found."]⟩
  | some s =>
    let s' : Session := ⟨s.userMessageCount + 1, s.userId⟩
    let wc := completionStep s'.userMessageCount inp.fetch inp.today
    ⟨some s', wc.1, wc.2 ++ relay inp.chunks inp.streamOk⟩

/-- Run a whole session: a sequence of `sendMessage` turns on one
connection, threading the session entry exactly as `sendMessage` stores it
(count incremented by one per turn). -/
def runSession : Session → List SendInput → List SendResult
  | _, [] => []
  | ⟨c, uid⟩, i :: is =>
    sendMessage (some ⟨c, uid⟩) i :: runSession ⟨c + 1, uid⟩ is

/-- Does an event record a completed conversation? -/
def isCompletedEvent : MsgEvent → Bool
  | .error _ => false
  | .conversationCompleted _ => true
  | .aiMessageChunk _ => false
  | .aiMessageEnd => false

/-- Did this `sendMessage` outcome emit a `conversationCompleted` event? -/
def hasCompleted (r : SendResult) : Bool := r.events.any isCompletedEvent

/-- The text of a chunk event. -/
def chunkText : MsgEvent → Option String
  | .error _ => none
  | .conversationCompleted _ => none
  | .aiMessageChunk t => some t
  | .aiMessageEnd => none

/-- Is an event the terminal end-of-stream signal? -/
def isEndEvent : MsgEvent → Bool
  | .error _ => false
  | .conversationCompleted _ => false
  | .aiMessageChunk _ => false
  | .aiMessageEnd => true

/-- Claim C1, counterexample: a non-premium profile whose
`last_conversation_date` is not today but whose stored
`daily_conversations` is 3 is refused by `startConversation`
(`limitReached`), refuting the claim that such a stale counter is treated
as logically zero by the quota decision. -/
theorem C1_counterexample :
    (⟨0, some "2024-01-01", some "2024-01-01", 3, false⟩ : Profile).is_premium = false ∧
    (⟨0, some "2024-01-01", some "2024-01-01", 3, false⟩ : Profile).last_conversation_date
      ≠ some "2024-01-02" ∧
    (startConversation (some "u")
        (some (rowOf ⟨0, some "2024-01-01", some "2024-01-01", 3, false⟩))
        (.ok "hi")).event = .limitReached := by
  decide

/-- Claim C1, amended: the quota decision of `startConversation` reads
only the stored `daily_conversations` and `is_premium` columns and ignores
`last_conversation_date` entirely; with a successful fetch and provider it
emits `limitReached` exactly when the profile is non-premium with a stored
count of at least 3, however stale that count is (the stale counter is
reset only by `getUserData`'s reconciliation). -/
theorem C1_amended (p : Profile) (uid reply : String) :
    (startConversation (some uid) (some (rowOf p)) (.ok reply)).event = .limitReached ↔
      (3 ≤ p.daily_conversations ∧ p.is_premium = false) := by
  unfold startConversation checkQuota rowOf
  by_cases h : 3 ≤ p.daily_conversations ∧ p.is_premium = false
  · simp [h]
  · simp [h]

/-- Claim C2, counterexample: on a session's 5th message the
`conversationCompleted` event heads the emitted trace, before every
streamed chunk and the end signal — the source emits it before streaming,
not after streaming completes. -/
theorem C2_counterexample :
    (sendMessage (some ⟨4, "u"⟩)
        ⟨some ⟨1, false⟩, "2024-01-02", ["hello"], true⟩).events =
      [.conversationCompleted 2, .aiMessageChunk "hello", .aiMessageEnd] := by
  decide

/-- Claim C2, amended: when an Active session's 5th message is sent and
the re-fetched profile is non-premium, the `conversationCompleted` event
is emitted before the streaming of that message's reply (it precedes the
relayed chunks in the trace), and it carries `daily_conversations` equal
to exactly 1 plus the store's current value at call time. -/
theorem C2_amended (s : Session) (u : QuotaRow) (today : String)
    (chunks : List String) (ok : Bool)
    (h5 : s.userMessageCount = 4) (hp : u.is_premium = false) :
    (sendMessage (some s) ⟨some u, today, chunks, ok⟩).events =
      .conversationCompleted (u.daily_conversations + 1) :: relay chunks ok := by
  simp [sendMessage, completionStep, h5, hp]

/-- Claim C2, amended witness at a concrete 5th turn. -/
theorem C2_amended_witness :
    (sendMessage (some ⟨4, "u"⟩) ⟨some ⟨0, false⟩, "d", ["a"], true⟩).events =
      .conversationCompleted 1 :: relay ["a"] true :=
  C2_amended ⟨4, "u"⟩ ⟨0, false⟩ "d" ["a"] true rfl rfl

/-- Claim C3, counterexample: a `startConversation` whose provider call
fails still leaves the freshly created session stored in `chatSessions`
(the source stores it before awaiting the provider), refuting the part of
the claim that no new Active session results from a failed start; the
failure itself is reported as a conversation error. -/
theorem C3_counterexample :
    (startConversation (some "u") (some ⟨0, false⟩) (.error ())).sessionSet =
      some ⟨0, "u"⟩ ∧
    (startConversation (some "u") (some ⟨0, false⟩) (.error ())).event =
      .error "Failed to start conversation." := by
  decide

/-- Claim C3, amended: an upstream provider failure is caught at the
handler boundary and reported as a conversation error; a failed
`sendMessage` turn leaves the session Active with its count already
incremented; but in `startConversation` the new session is registered
before the provider call, so a failed Idle→Active start leaves the new
Active session in the registry rather than none. -/
theorem C3_amended :
    (∀ (uid : String) (row : QuotaRow), checkQuota row = true →
      (startConversation (some uid) (some row) (.error ())).event =
          .error "Failed to start conversation." ∧
      (startConversation (some uid) (some row) (.error ())).sessionSet =
          some ⟨0, uid⟩) ∧
    (∀ (s : Session) (inp : SendInput), inp.streamOk = false →
      (sendMessage (some s) inp).session = some ⟨s.userMessageCount + 1, s.userId⟩ ∧
      MsgEvent.error "Failed to get AI response." ∈ (sendMessage (some s) inp).events) := by
  constructor
  · intro uid row h
    simp [startConversation, h]
  · intro s inp h
    refine ⟨rfl, ?_⟩
    simp [sendMessage, relay, h, List.mem_append]

/-- Claim C3, amended witness at concrete failing calls. -/
theorem C3_amended_witness :
    (startConversation (some "u") (some ⟨0, true⟩) (.error ())).sessionSet =
      some ⟨0, "u"⟩ ∧
    MsgEvent.error "Failed to get AI response." ∈
      (sendMessage (some ⟨0, "u"⟩) ⟨none, "d", [], false⟩).events :=
  ⟨(C3_amended.1 "u" ⟨0, true⟩ (by decide)).2,
   (C3_amended.2 ⟨0, "u"⟩ ⟨none, "d", [], false⟩ rfl).2⟩

/-- Claim C4: login reconciliation in `getUserData` (successful store
write) emits a profile with streak = old streak + 1 when
`last_login_date` equals yesterday, and with streak = 1 whenever
`last_login_date` is neither yesterday nor today (absent or more than one
day old included). -/
theorem C4_streak (uid : String) (user : Profile) (today yesterday : String) :
    (user.last_login_date = some yesterday →
      (eventProfile (getUserData (some uid) (some user) true today yesterday)).map
          Profile.streak = some (user.streak + 1)) ∧
    (user.last_login_date ≠ some yesterday → user.last_login_date ≠ some today →
      (eventProfile (getUserData (some uid) (some user) true today yesterday)).map
          Profile.streak = some 1) := by
  constructor
  · intro h
    by_cases hyt : yesterday = today <;>
      by_cases h3 : user.last_conversation_date = some today <;>
        simp [getUserData, computeUpdates, applyUpdates, eventProfile, h, hyt, h3]
  · intro h1 h2
    by_cases h3 : user.last_conversation_date = some today <;>
      simp [getUserData, computeUpdates, applyUpdates, eventProfile, h1, h2, h3]

/-- Claim C4, witness: a streak of 2 with yesterday's login becomes 3. -/
theorem C4_streak_witness :
    (eventProfile (getUserData (some "u")
        (some ⟨2, some "2024-01-01", some "2024-01-02", 1, false⟩)
        true "2024-01-02" "2024-01-01")).map Profile.streak = some 3 :=
  (C4_streak "u" ⟨2, some "2024-01-01", some "2024-01-02", 1, false⟩
    "2024-01-02" "2024-01-01").1 rfl

/-- Claim C5: the quota guard allows iff premium or fewer than 3 daily
conversations — true for any premium row regardless of the count, false
iff non-premium with count at least 3 — and when it refuses,
`startConversation` emits the distinct `limitReached` signal and stores no
session. -/
theorem C5_checkQuota (row : QuotaRow) (uid reply : String) :
    (checkQuota row = true ↔ (row.is_premium = true ∨ row.daily_conversations < 3)) ∧
    (row.is_premium = true → checkQuota row = true) ∧
    (checkQuota row = false ↔
      (row.is_premium = false ∧ 3 ≤ row.daily_conversations)) ∧
    (checkQuota row = false →
      (startConversation (some uid) (some row) (.ok reply)).event = .limitReached ∧
      (startConversation (some uid) (some row) (.ok reply)).sessionSet = none) := by
  have h1 : checkQuota row = true ↔
      (row.is_premium = true ∨ row.daily_conversations < 3) := by
    rcases row with ⟨dc, prem⟩
    cases prem <;> by_cases hd : 3 ≤ dc <;> simp [checkQuota, hd] <;> omega
  have h3 : checkQuota row = false ↔
      (row.is_premium = false ∧ 3 ≤ row.daily_conversations) := by
    rcases row with ⟨dc, prem⟩
    cases prem <;> by_cases hd : 3 ≤ dc <;> simp [checkQuota, hd]
  refine ⟨h1, fun hp => h1.2 (Or.inl hp), h3, fun hf => ?_⟩
  constructor <;> simp [startConversation, hf]

/-- Claim C5, witness: a premium row with count 5 is allowed; a
non-premium row with count 3 is refused with `limitReached`. -/
theorem C5_checkQuota_witness :
    checkQuota ⟨5, true⟩ = true ∧
    (startConversation (some "u") (some ⟨3, false⟩) (.ok "hi")).event =
      .limitReached :=
  ⟨(C5_checkQuota ⟨5, true⟩ "u" "hi").2.1 rfl,
   ((C5_checkQuota ⟨3, false⟩ "u" "hi").2.2.2 (by decide)).1⟩

/-- Claim C8: a profile already current for today (`last_login_date` and
`last_conversation_date` both today, yesterday being a different day)
makes `getUserData` compute no update, attempt no store write, and emit
the fetched profile unmodified — so a repeated same-day fetch is
idempotent. -/
theorem C8_idempotent (uid : String) (user : Profile) (today yesterday : String)
    (ok : Bool) (hy : yesterday ≠ today)
    (h1 : user.last_login_date = some today)
    (h2 : user.last_conversation_date = some today) :
    getUserData (some uid) (some user) ok today yesterday =
      ⟨none, .userData user⟩ := by
  simp [getUserData, computeUpdates, h1, h2, Ne.symm hy]

/-- Claim C8, witness at a concrete current profile. -/
theorem C8_idempotent_witness :
    getUserData (some "u")
        (some ⟨3, some "2024-01-02", some "2024-01-02", 1, false⟩)
        true "2024-01-02" "2024-01-01" =
      ⟨none, .userData ⟨3, some "2024-01-02", some "2024-01-02", 1, false⟩⟩ :=
  C8_idempotent "u" ⟨3, some "2024-01-02", some "2024-01-02", 1, false⟩
    "2024-01-02" "2024-01-01" true (by decide) rfl rfl

/-- Claim C9: when reconciliation computes an update but the store write
fails, `getUserData` still attempts the write and then emits the
pre-update fetched profile (a `userData` event, not an error and not
silence), leaving the stored data unreconciled. -/
theorem C9_write_failure (uid : String) (user : Profile) (today yesterday : String)
    (h : (computeUpdates user today yesterday).2 = true) :
    getUserData (some uid) (some user) false today yesterday =
      ⟨some (computeUpdates user today yesterday).1, .userData user⟩ := by
  simp [getUserData, h]

/-- Claim C9, witness: a fresh profile needing reconciliation, write
failing, still gets its old data back. -/
theorem C9_write_failure_witness :
    getUserData (some "u") (some ⟨0, none, none, 0, false⟩)
        false "2024-01-02" "2024-01-01" =
      ⟨some (computeUpdates ⟨0, none, none, 0, false⟩ "2024-01-02" "2024-01-01").1,
       .userData ⟨0, none, none, 0, false⟩⟩ :=
  C9_write_failure "u" ⟨0, none, none, 0, false⟩ "2024-01-02" "2024-01-01"
    (by decide)

/-- Claim C10: on a session's 5th message, if the completion-time re-fetch
fails or returns a premium row, no store write is attempted and the
completion block emits neither a completion event nor an error — the reply
is still streamed to the client normally (the trace is exactly the relay's
output). -/
theorem C10_completion_skipped (s : Session) (inp : SendInput)
    (h5 : s.userMessageCount = 4)
    (h : inp.fetch = none ∨ ∃ u, inp.fetch = some u ∧ u.is_premium = true) :
    sendMessage (some s) inp =
      ⟨some ⟨s.userMessageCount + 1, s.userId⟩, none,
       relay inp.chunks inp.streamOk⟩ := by
  rcases h with h | ⟨u, hf, hp⟩
  · simp [sendMessage, completionStep, h5, h]
  · simp [sendMessage, completionStep, h5, hf, hp]

/-- Claim C10, witness: premium re-fetch on the 5th turn streams normally
with no write. -/
theorem C10_completion_skipped_witness :
    sendMessage (some ⟨4, "u"⟩) ⟨some ⟨2, true⟩, "d", ["a"], true⟩ =
      ⟨some ⟨5, "u"⟩, none, relay ["a"] true⟩ :=
  C10_completion_skipped ⟨4, "u"⟩ ⟨some ⟨2, true⟩, "d", ["a"], true⟩ rfl
    (Or.inr ⟨⟨2, true⟩, rfl, rfl⟩)

/-- Unfolding the relay one chunk at a time. -/
theorem relay_cons (c : String) (cs : List String) (ok : Bool) :
    relay (c :: cs) ok = .aiMessageChunk c :: relay cs ok := rfl

/-- The relayed chunk events of a trace are exactly the input chunks. -/
theorem relay_filterMap_chunks (chunks : List String) (ok : Bool) :
    (relay chunks ok).filterMap chunkText = chunks := by
  induction chunks with
  | nil => cases ok <;> rfl
  | cons c cs ih =>
    rw [relay_cons, List.filterMap_cons]
    simp [chunkText, ih]

/-- The relay emits one end signal on success and none on failure. -/
theorem relay_countP_end (chunks : List String) (ok : Bool) :
    (relay chunks ok).countP isEndEvent = if ok then 1 else 0 := by
  induction chunks with
  | nil => cases ok <;> rfl
  | cons c cs ih =>
    rw [relay_cons, List.countP_cons]
    simp [isEndEvent, ih]

/-- The relay never emits a completion event. -/
theorem relay_no_completed (chunks : List String) (ok : Bool) :
    (relay chunks ok).any isCompletedEvent = false := by
  induction chunks with
  | nil => cases ok <;> rfl
  | cons c cs ih =>
    rw [relay_cons, List.any_cons]
    simp [isCompletedEvent, ih]

/-- A turn with a non-premium re-fetch emits a completion event exactly
when the incremented count hits 5. -/
theorem hasCompleted_sendMessage (s : Session) (inp : SendInput) (u : QuotaRow)
    (hf : inp.fetch = some u) (hp : u.is_premium = false) :
    hasCompleted (sendMessage (some s) inp) =
      decide (s.userMessageCount + 1 = 5) := by
  by_cases h5 : s.userMessageCount + 1 = 5 <;>
    simp [hasCompleted, sendMessage, completionStep, h5, hf, hp,
      List.any_append, relay_no_completed, isCompletedEvent]

/-- Completion count over a whole session run, generalised over the
starting message count. -/
theorem runSession_countP (uid : String) (inputs : List SendInput) :
    ∀ c : Nat,
      (∀ i ∈ inputs, ∃ u, i.fetch = some u ∧ u.is_premium = false) →
      (runSession ⟨c, uid⟩ inputs).countP hasCompleted =
        if c < 5 ∧ 5 ≤ c + inputs.length then 1 else 0 := by
  induction inputs with
  | nil =>
    intro c _
    rw [runSession]
    simp only [List.countP_nil, List.length_nil]
    split
    · omega
    · rfl
  | cons i is ih =>
    intro c h
    obtain ⟨u, hf, hp⟩ := h i (List.mem_cons_self i is)
    have hrest : ∀ j ∈ is, ∃ u, j.fetch = some u ∧ u.is_premium = false :=
      fun j hj => h j (List.mem_cons_of_mem i hj)
    rw [runSession, List.countP_cons, ih (c + 1) hrest,
      hasCompleted_sendMessage ⟨c, uid⟩ i u hf hp]
    simp only [List.length_cons, decide_eq_true_eq]
    split_ifs <;> omega

/-- Claim C7: the streaming relay forwards the provider's fragments in
exactly the order received (the chunk events of the trace, in order, are
the input list), emits exactly one terminal end signal, placed after the
last fragment, when the stream completes, and on a mid-stream failure
emits the error signal and no end signal. -/
theorem C7_relay_order (chunks : List String) (ok : Bool) :
    ((relay chunks ok).filterMap chunkText = chunks) ∧
    ((relay chunks ok).countP isEndEvent = if ok then 1 else 0) ∧
    (ok = true → relay chunks ok =
      chunks.map MsgEvent.aiMessageChunk ++ [MsgEvent.aiMessageEnd]) ∧
    (ok = false → MsgEvent.aiMessageEnd ∉ relay chunks ok ∧
      MsgEvent.error "Failed to get AI response." ∈ relay chunks ok) := by
  refine ⟨relay_filterMap_chunks chunks ok, relay_countP_end chunks ok,
    fun h => by simp [relay, h], fun h => ?_⟩
  subst h
  constructor
  · simp [relay]
  · simp [relay]

/-- Claim C7, witness: a two-chunk successful stream and a failed stream. -/
theorem C7_relay_order_witness :
    relay ["a", "b"] true =
      (["a", "b"].map MsgEvent.aiMessageChunk ++ [MsgEvent.aiMessageEnd]) ∧
    MsgEvent.error "Failed to get AI response." ∈ relay ["a"] false :=
  ⟨(C7_relay_order ["a", "b"] true).2.2.1 rfl,
   ((C7_relay_order ["a"] false).2.2.2 rfl).2⟩

/-- Claim C6: over a whole session (fresh entry, non-premium re-fetches),
exactly one turn emits a completion — the one where the count reaches 5 —
and no session with fewer than 5 turns ever completes; per turn, a
completion event is emitted iff the incremented count is exactly 5 and the
re-fetched row is non-premium, and the store write it performs sets
`daily_conversations` to the re-fetched current value plus 1 and
`last_conversation_date` to today. -/
theorem C6_completion_once (uid : String) (inputs : List SendInput)
    (h : ∀ i ∈ inputs, ∃ u, i.fetch = some u ∧ u.is_premium = false) :
    ((runSession ⟨0, uid⟩ inputs).countP hasCompleted =
      if 5 ≤ inputs.length then 1 else 0) ∧
    (∀ (s : Session) (i : SendInput) (u : QuotaRow), i.fetch = some u →
      (hasCompleted (sendMessage (some s) i) = true ↔
        (s.userMessageCount + 1 = 5 ∧ u.is_premium = false))) ∧
    (∀ (s : Session) (i : SendInput) (u : QuotaRow),
      s.userMessageCount + 1 = 5 → i.fetch = some u → u.is_premium = false →
      (sendMessage (some s) i).write = some (u.daily_conversations + 1, i.today)) := by
  refine ⟨?_, ?_, ?_⟩
  · simpa using runSession_countP uid inputs 0 h
  · intro s i u hf
    by_cases h5 : s.userMessageCount + 1 = 5 <;>
      cases hp : u.is_premium <;>
        simp [hasCompleted, sendMessage, completionStep, h5, hf, hp,
          List.any_append, relay_no_completed, isCompletedEvent]
  · intro s i u h5 hf hp
    simp [sendMessage, completionStep, h5, hf, hp]

/-- Claim C6, witness: a 6-turn session with non-premium re-fetches
completes exactly once, and the 5th turn's write is current value + 1. -/
theorem C6_completion_once_witness :
    (runSession ⟨0, "u"⟩
        (List.replicate 6 ⟨some ⟨1, false⟩, "d", [], true⟩)).countP hasCompleted = 1 ∧
    (sendMessage (some ⟨4, "u"⟩) ⟨some ⟨1, false⟩, "d", [], true⟩).write =
      some (2, "d") := by
  have h : ∀ i ∈ List.replicate 6 (⟨some ⟨1, false⟩, "d", [], true⟩ : SendInput),
      ∃ u, i.fetch = some u ∧ u.is_premium = false := by
    intro i hi
    rw [List.eq_of_mem_replicate hi]
    exact ⟨⟨1, false⟩, rfl, rfl⟩
  have T := C6_completion_once "u"
    (List.replicate 6 ⟨some ⟨1, false⟩, "d", [], true⟩) h
  refine ⟨?_, T.2.2 ⟨4, "u"⟩ ⟨some ⟨1, false⟩, "d", [], true⟩ ⟨1, false⟩ rfl rfl rfl⟩
  simpa using T.1

end AIEnglish
